import Mathlib

/-!
Verification development for the opkssh repository: a shallow embedding of
the CLI entry point (`main.run`), the login pipeline (`commands/login.go`),
the client-config creation (`commands/config/client_config.go`) and the
server-side trusted-file loading, together with theorems settling the
specification claims.
-/

namespace Opkssh

/-! ### Verify command: `run` in main, `verify` case.

`os.Args` for a verify invocation is
`[prog, "verify", userArg, certB64, pubkeyType]` (the code reads
`os.Args[2]`, `os.Args[3]`, `os.Args[4]` in that order after checking
`len(os.Args) == 5`). -/

/-- Positional arguments of a verify invocation, as the code names them:
`userArg := os.Args[2]`, `certB64 := os.Args[3]`, `pubkeyType := os.Args[4]`. -/
structure VerifyArgs where
  userArg : String
  certB64 : String
  pubkeyType : String
deriving DecidableEq, Repr

/-- Argument extraction done by `run` for the `verify` subcommand:
reject unless `len(os.Args) == 5`, then take user, base64 cert, key type
in positions 2, 3, 4. -/
def parseVerifyArgs (args : List String) : Option VerifyArgs :=
  match args with
  | [_, _, userArg, certB64, pubkeyType] => some ⟨userArg, certB64, pubkeyType⟩
  | _ => none

/-- The argument order asserted by the spec sentence "Entry point called as
`verify <user> <type> <b64cert>`": user in position 2, key type in
position 3, base64 cert in position 4. This definition follows the spec's
words, to be compared with `parseVerifyArgs`, which follows the source. -/
def specVerifyArgs (args : List String) : Option VerifyArgs :=
  match args with
  | [_, _, userArg, pubkeyType, certB64] => some ⟨userArg, certB64, pubkeyType⟩
  | _ => none

/-- Modelled from the spec: `VerifyCmd.Verify` is not under `src/` (only its
caller and tests are). On success it yields the authority line
`cert-authority ecdsa-sha2-nistp256 <b64 of ephemeral pubkey>`; we model its
result as the base64 ephemeral public key and build the line from it. -/
def authorityLine (b64Pubkey : String) : String :=
  "cert-authority ecdsa-sha2-nistp256 " ++ b64Pubkey

/-- The line `fmt.Println("ERROR opening log file:", err)` writes to stdout
when `/var/log/openpubkey.log` cannot be opened. -/
def logOpenErrLine : String :=
  "ERROR opening log file: open /var/log/openpubkey.log: permission denied"

/-- Environment of a verify invocation: whether the log file at
`/var/log/openpubkey.log` can be opened, and the outcome of
`VerifyCmd.Verify` (error, or the base64 ephemeral public key) as a
function of the user, base64 cert and key type arguments. -/
structure VerifyEnv where
  logOpenOk : Bool
  verify : String → String → String → Except String String

/-- The `verify` case of `run`, returning the exit code and the list of
lines written to stdout. Mirrors the source: open the log file (on failure
the error is printed to stdout and logging stays on stderr); log the
arguments (log output, not stdout); check `len(os.Args) == 5`; run
`v.Verify(ctx, userArg, certB64, pubkeyType)`; print the authority line on
success. (Provider construction failures before the switch exit 1 without
touching stdout and are not modelled.) -/
def runVerify (args : List String) (env : VerifyEnv) : Nat × List String :=
  let pre : List String := if env.logOpenOk then [] else [logOpenErrLine]
  match parseVerifyArgs args with
  | none => (1, pre)
  | some a =>
    match env.verify a.userArg a.certB64 a.pubkeyType with
    | .error _ => (1, pre)
    | .ok b64 => (0, pre ++ [authorityLine b64])

/-! ### Trusted server-side configuration files.

The loader (`VerifyCmd.SetEnvVarInConfig` together with
`files.PermsChecker`) is not under `src/`; only its test
`TestEnvFromConfig` is. It is modelled from the spec and the error strings
the test demands. -/

/-- Ownership and mode of a file as seen by the permission checker. -/
structure FileMeta where
  owner : String
  group : String
  perms : Nat
deriving DecidableEq, Repr

/-- Modelled from the spec: `files.PermsChecker.CheckPerm` is not under
`src/`. A trusted server-side file must be owned `root:opksshuser` with
mode `640`; any deviation is an error (error strings as required by
`TestEnvFromConfig`). -/
def checkPerm (m : FileMeta) (requiredPerms : List Nat)
    (requiredOwner requiredGroup : String) : Except String Unit :=
  if m.owner ≠ requiredOwner then
    .error ("expected owner (" ++ requiredOwner ++ "), got (" ++ m.owner ++ ")")
  else if m.group ≠ requiredGroup then
    .error ("expected group (" ++ requiredGroup ++ "), got (" ++ m.group ++ ")")
  else if !(requiredPerms.contains m.perms) then
    .error "expected one of the following permissions [640], got another"
  else
    .ok ()

/-- A trusted server-side file (server config, system policy, provider
registry entry): present or not, its ownership/mode, and its parsed
`env_vars` content (`none` models a parse failure). -/
structure TrustedFile where
  present : Bool
  meta : FileMeta
  envVars : Option (List (String × String))
deriving DecidableEq, Repr

/-- Modelled from the spec: loading a trusted server-side file. Missing
file, wrong ownership/mode, or parse failure each error; only then is the
content trusted. Check order (existence, permissions, parse) follows
`TestEnvFromConfig`: a file with correct contents but mode `677` must
fail with the permission error. -/
def loadTrustedFile (f : TrustedFile) : Except String (List (String × String)) :=
  if !f.present then .error "file does not exist"
  else
    match checkPerm f.meta [0o640] "root" "opksshuser" with
    | .error e => .error e
    | .ok _ =>
      match f.envVars with
      | none => .error "failed to parse config file"
      | some vs => .ok vs

/-- Modelled from the spec: `VerifyCmd.SetEnvVarInConfig` loads the server
config and, only on success, exports its `env_vars` into the process
environment (modelled as a list of bindings prepended to the environment). -/
def setEnvVarInConfig (f : TrustedFile) (env : List (String × String)) :
    Except String (List (String × String)) :=
  match loadTrustedFile f with
  | .error e => .error e
  | .ok vs => .ok (vs ++ env)

/-! ### Writing the key pair: `writeKeys` and `writeKeysToSSHDir`
(`commands/login.go`). -/

/-- One file write: path, content, mode. -/
structure FileWrite where
  path : String
  content : String
  mode : Nat
deriving DecidableEq, Repr

/-- `LoginCmd.writeKeys`: the secret key is written to `seckeyPath` with
mode `0600`; the certificate gets `" openpubkey"` appended and is written
to `pubkeyPath` with mode `0644`. -/
def writeKeys (seckeyPath pubkeyPath : String) (seckeySshPem certBytes : String) :
    List FileWrite :=
  [⟨seckeyPath, seckeySshPem, 0o600⟩,
   ⟨pubkeyPath, certBytes ++ " openpubkey", 0o644⟩]

/-- State of one default SSH key slot (`id_ecdsa` or `id_ed25519`): whether
the secret-key file exists, whether the public-key file exists, and the
comment obtained by reading and parsing the public-key file (`none` models
a read or parse failure). -/
structure SshKeySlot where
  seckeyExists : Bool
  pubkeyExists : Bool
  pubkeyComment : Option String
deriving DecidableEq, Repr

/-- A slot is well formed when a missing public-key file yields no comment. -/
def SshKeySlot.WF (s : SshKeySlot) : Prop :=
  s.pubkeyExists = false → s.pubkeyComment = none

/-- The loop body of `LoginCmd.writeKeysToSSHDir` over the candidate paths:
choose the first path whose secret-key file does not exist; a slot whose
secret key exists but whose public key is missing, unreadable or
unparseable is skipped; a slot whose public key parses with comment
`"openpubkey"` is chosen; any other comment is skipped. If no slot is
chosen the command errors. Returns the chosen secret-key path. -/
def selectSSHSlot : List (String × SshKeySlot) → Except String String
  | [] => .error "no default ssh key file free for openpubkey"
  | (path, s) :: rest =>
    if !s.seckeyExists then .ok path
    else if !s.pubkeyExists then selectSSHSlot rest
    else
      match s.pubkeyComment with
      | none => selectSSHSlot rest
      | some comment =>
        if comment = "openpubkey" then .ok path
        else selectSSHSlot rest

/-- Secret-key path of the first candidate slot, `~/.ssh/id_ecdsa`. -/
def idEcdsaPath : String := "~/.ssh/id_ecdsa"

/-- Secret-key path of the second candidate slot, `~/.ssh/id_ed25519`. -/
def idEd25519Path : String := "~/.ssh/id_ed25519"

/-- `LoginCmd.writeKeysToSSHDir`: run the slot selection over
`id_ecdsa` then `id_ed25519` and write the key pair to the chosen slot
via `writeKeys` (public key at the secret-key path plus `".pub"`). -/
def writeKeysToSSHDir (ecdsa ed25519 : SshKeySlot)
    (seckeySshPem certBytes : String) : Except String (List FileWrite) :=
  match selectSSHSlot [(idEcdsaPath, ecdsa), (idEd25519Path, ed25519)] with
  | .error e => .error e
  | .ok path => .ok (writeKeys path (path ++ ".pub") seckeySshPem certBytes)

/-- The freeness condition as the spec states it: the slot's secret-key
file is absent, or its public-key file carries the comment `openpubkey`.
This definition follows the spec's words, to be compared with
`selectSSHSlot`, which follows the source. -/
def specSlotFree (s : SshKeySlot) : Prop :=
  s.seckeyExists = false ∨ s.pubkeyComment = some "openpubkey"

instance (s : SshKeySlot) : Decidable (specSlotFree s) := by
  unfold specSlotFree; infer_instance

/-! ### Provider resolution: `LoginCmd.determineProvider`
(`commands/login.go`). -/

/-- A provider configuration row: alias, issuer, client id, expiration
policy. Provider objects are modelled by their configuration (the
`ToProvider` constructor of the `config` package is not under `src/`). -/
structure ProviderConfig where
  aliasName : String
  issuer : String
  clientID : String
  expirationPolicy : String
deriving DecidableEq, Repr

/-- The alias that denotes the interactive web chooser
(`config.WEBCHOOSER_ALIAS`). -/
def WEBCHOOSER_ALIAS : String := "WEBCHOOSER"

/-- Modelled from the spec: `config.NewProviderConfigFromString` is not
under `src/`. The single-string provider form is
`<issuer>,<client_id>,<expiration_policy>,...` (spec section 4.8); a
flag-supplied config carries no alias. -/
def providerConfigFromString (s : String) : Except String ProviderConfig :=
  match s.splitOn "," with
  | issuer :: clientID :: policy :: _ => .ok ⟨"", issuer, clientID, policy⟩
  | _ => .error "expected at least 3 comma separated fields"

/-- Modelled from the spec: `config.CreateProvidersMap` keys provider
configs by alias; lookup returns the first config carrying the alias. -/
def lookupProviderByAlias (cfgs : List ProviderConfig) (a : String) :
    Option ProviderConfig :=
  cfgs.find? (fun c => c.aliasName = a)

/-- Everything `determineProvider` reads: the `--provider` and
`--provider-alias` flags (empty string when absent), the `OPKSSH_DEFAULT`
environment variable (empty when unset), the parse of `OPKSSH_PROVIDERS`
(error, or `none` when unset, or the provider list), and the client
config's `default_provider` and `providers`. -/
structure DetermineInput where
  providerArg : String
  providerAliasArg : String
  envDefault : String
  envProviders : Except String (Option (List ProviderConfig))
  configDefaultProvider : String
  configProviders : List ProviderConfig
deriving Repr

/-- Result of provider resolution: a single provider, or the web chooser
over a provider list. -/
inductive DetermineResult
  | provider (cfg : ProviderConfig)
  | chooser (cfgs : List ProviderConfig)
deriving DecidableEq, Repr

/-- `LoginCmd.determineProvider`: the `--provider` flag short-circuits
everything; otherwise the default alias is `--provider-alias`, else
`OPKSSH_DEFAULT`, else the config's `default_provider`, else `WEBCHOOSER`;
provider configs come from `OPKSSH_PROVIDERS` when set, else from the
client config; a non-`WEBCHOOSER` alias is looked up in the configs, and
the `WEBCHOOSER` alias yields the chooser over all configs. -/
def determineProvider (i : DetermineInput) : Except String DetermineResult :=
  if i.providerArg ≠ "" then
    match providerConfigFromString i.providerArg with
    | .error e => .error ("error parsing provider argument: " ++ e)
    | .ok cfg => .ok (.provider cfg)
  else
    match i.envProviders with
    | .error e => .error ("error getting provider config from env: " ++ e)
    | .ok envProviderConfigs =>
      let defaultProviderAlias :=
        if i.providerAliasArg ≠ "" then i.providerAliasArg
        else if i.envDefault ≠ "" then i.envDefault
        else if i.configDefaultProvider ≠ "" then i.configDefaultProvider
        else WEBCHOOSER_ALIAS
      let providerConfigsResult : Except String (List ProviderConfig) :=
        match envProviderConfigs with
        | some cfgs => .ok cfgs
        | none =>
          if i.configProviders.length > 0 then .ok i.configProviders
          else .error "no providers specified"
      match providerConfigsResult with
      | .error e => .error e
      | .ok providerConfigs =>
        if defaultProviderAlias.toUpper ≠ WEBCHOOSER_ALIAS then
          match lookupProviderByAlias providerConfigs defaultProviderAlias with
          | none =>
            .error ("error getting provider config for alias " ++ defaultProviderAlias)
          | some cfg => .ok (.provider cfg)
        else
          .ok (.chooser providerConfigs)

/-- The default-provider alias as the spec's precedence sentence states it:
the first named among `--provider-alias`, `OPKSSH_DEFAULT`, the config's
`default_provider`; the chooser alias when none names one. This definition
follows the spec's words, to be compared with `determineProvider`. -/
def specDefaultAlias (i : DetermineInput) : String :=
  (([i.providerAliasArg, i.envDefault, i.configDefaultProvider].filter
      (fun a => a ≠ "")).headD WEBCHOOSER_ALIAS)

/-- The whole resolution as the spec's precedence sentence states it. This
definition follows the spec's words, to be compared with
`determineProvider`, which follows the source. -/
def specDetermineProvider (i : DetermineInput) : Except String DetermineResult :=
  if i.providerArg ≠ "" then
    match providerConfigFromString i.providerArg with
    | .error e => .error ("error parsing provider argument: " ++ e)
    | .ok cfg => .ok (.provider cfg)
  else
    match i.envProviders with
    | .error e => .error ("error getting provider config from env: " ++ e)
    | .ok envProviderConfigs =>
      let cfgsResult : Except String (List ProviderConfig) :=
        match envProviderConfigs with
        | some cfgs => .ok cfgs
        | none =>
          if i.configProviders.length > 0 then .ok i.configProviders
          else .error "no providers specified"
      match cfgsResult with
      | .error e => .error e
      | .ok cfgs =>
        if (specDefaultAlias i).toUpper = WEBCHOOSER_ALIAS then
          .ok (.chooser cfgs)
        else
          match lookupProviderByAlias cfgs (specDefaultAlias i) with
          | none => .error ("error getting provider config for alias " ++ specDefaultAlias i)
          | some cfg => .ok (.provider cfg)

/-! ### The auto-refresh loop: `LoginCmd.LoginWithRefresh`
(`commands/login.go`). Each iteration sleeps until one minute before the
current token's `exp`, or returns the context's error on cancellation;
then refreshes, re-binds the certificate, rewrites the key files and
re-reads the `exp` claim. Outcomes of the environment-facing steps
(timer vs. cancellation, `client.Refresh`, `createSSHCert`, the refreshed
token's `exp` claim) are supplied per iteration. -/

/-- How the `select` in an iteration resolves: the timer fired, or the
context was cancelled (`SIGINT`/`SIGTERM` trigger `cancel()`). -/
inductive WaitOutcome
  | woke
  | cancelled
deriving DecidableEq, Repr

/-- The error `ctx.Err()` returns after `cancel()`. -/
def ctxCanceledErr : String := "context canceled"

/-- `untilExpired` of an iteration: `time.Until(time.Unix(exp, 0)) -
time.Minute`, i.e. the duration (seconds) from `now` to one minute before
`exp`. -/
def untilExpired (now exp : Int) : Int := (exp - now) - 60

/-- Environment of one refresh-loop iteration. `certResult` carries
`(certBytes, seckeySshPem)` from `createSSHCert`; `slots` is the state of
the two default key slots at write time; `expResult` is the `exp` claim
extracted from the refreshed token (compact/split/decode/unmarshal chain,
any of whose failures it models). -/
structure IterEnv where
  wait : WaitOutcome
  refreshResult : Except String Unit
  certResult : Except String (String × String)
  slots : SshKeySlot × SshKeySlot
  expResult : Except String Int
deriving Repr

/-- Loop-carried state: the `exp` claim governing the next sleep, and the
file writes performed so far. -/
structure RefreshState where
  exp : Int
  writes : List FileWrite
deriving DecidableEq, Repr

/-- Result of one iteration: loop again with new state, or return. -/
inductive IterResult
  | next (st : RefreshState)
  | stopped (e : String)
deriving DecidableEq, Repr

/-- One iteration of the `for` loop in `LoginWithRefresh`, for output key
path `seckeyPath` (empty string means the default `~/.ssh` slots).
Every failure returns immediately: cancellation returns `ctx.Err()`, a
`Refresh` error is returned as is, a cert-generation or write error is
returned wrapped, a malformed refreshed token is returned as an error.
On full success the key files are rewritten and `exp` is updated. -/
def refreshIter (seckeyPath : String) (st : RefreshState) (env : IterEnv) :
    IterResult :=
  match env.wait with
  | .cancelled => .stopped ctxCanceledErr
  | .woke =>
    match env.refreshResult with
    | .error e => .stopped e
    | .ok _ =>
      match env.certResult with
      | .error e => .stopped ("failed to generate SSH cert: " ++ e)
      | .ok (certBytes, seckeySshPem) =>
        let writeResult : Except String (List FileWrite) :=
          if seckeyPath ≠ "" then
            .ok (writeKeys seckeyPath (seckeyPath ++ ".pub") seckeySshPem certBytes)
          else
            writeKeysToSSHDir env.slots.1 env.slots.2 seckeySshPem certBytes
        match writeResult with
        | .error e => .stopped ("failed to write SSH keys to filesystem: " ++ e)
        | .ok ws =>
          match env.expResult with
          | .error e => .stopped e
          | .ok newExp => .next { exp := newExp, writes := st.writes ++ ws }

/-- Outcome of running the loop over a finite trace of iteration
environments: still looping when the trace is exhausted, or returned. -/
inductive LoopOutcome
  | running (st : RefreshState)
  | stopped (e : String)
deriving DecidableEq, Repr

/-- The `for` loop of `LoginWithRefresh` over a trace of iteration
environments. As soon as an iteration returns, the rest of the trace is
never consumed: the loop performs no retry and no backoff. -/
def refreshLoop (seckeyPath : String) (st : RefreshState) :
    List IterEnv → LoopOutcome
  | [] => .running st
  | env :: rest =>
    match refreshIter seckeyPath st env with
    | .stopped e => .stopped e
    | .next st2 => refreshLoop seckeyPath st2 rest

/-! ### `LoginCmd.Run` and `config.CreateDefaultClientConfig`
(`commands/login.go`, `commands/config/client_config.go`). -/

/-- `config.GetDefaultClientConfigPath` combined with `Run`'s defaulting:
an empty `--config-path` resolves to `<home>/.opk/config.yml`. -/
def resolveConfigPath (homePath configPathArg : String) : String :=
  if configPathArg = "" then homePath ++ "/.opk/config.yml" else configPathArg

/-- Contents of the embedded `default-client-config.yml` (the embedded
file itself is not under `src/`; its exact text is irrelevant to the
claims, only that it is what gets written). -/
def defaultClientConfigContent : String := "embedded default-client-config.yml"

/-- Does the filesystem hold a file at `p` (`Fs.Stat` succeeding)? -/
def fsHas (fs : List FileWrite) (p : String) : Bool :=
  (fs.find? (fun w => w.path = p)).isSome

/-- `config.CreateDefaultClientConfig`: resolve the path, error if a file
already exists there (leaving the filesystem unchanged), else write the
embedded default config with mode `0644` (directory creation and the
write itself modelled as succeeding). Returns the outcome and the
resulting filesystem. -/
def CreateDefaultClientConfig (homePath configPathArg : String)
    (fs : List FileWrite) : Except String Unit × List FileWrite :=
  let path := resolveConfigPath homePath configPathArg
  if fsHas fs path then
    (.error ("attempting to create config file but config file already exists at " ++ path), fs)
  else
    (.ok (), fs ++ [⟨path, defaultClientConfigContent, 0o644⟩])

/-- A resolved provider as `Run` sees it: its issuer, and whether it
implements `providers.RefreshableOpenIdProvider`. -/
structure ProviderModel where
  issuer : String
  refreshable : Bool
deriving DecidableEq, Repr

/-- Everything the modelled part of `LoginCmd.Run` reads: home directory,
`--config-path`, `--create-config`, `--auto-refresh`, the filesystem, the
parse outcome of an existing config file, the parse outcome of the
embedded default config, and the outcome of provider resolution
(`determineProvider` plus the chooser). -/
structure RunInput where
  homePath : String
  configPathArg : String
  createConfig : Bool
  autoRefresh : Bool
  fs : List FileWrite
  configParse : Except String Unit
  defaultConfigParse : Except String Unit
  resolvedProvider : Except String ProviderModel
deriving Repr

/-- Outcome of the modelled part of `Run`: returned from the
`CreateDefaultClientConfig` branch, failed with an error, or proceeded to
`Login`/`LoginWithRefresh` (the point where authentication is attempted)
with the given provider. -/
inductive RunOutcome
  | configCreated (r : Except String Unit) (fs : List FileWrite)
  | failed (e : String)
  | login (withRefresh : Bool) (p : ProviderModel)
deriving Repr

/-- The error `Run` returns when `--auto-refresh` is set but the provider
does not implement the refresh capability. -/
def noRefreshMsg (issuer : String) : String :=
  "supplied OpenID Provider (" ++ issuer ++
    ") does not support auto-refresh and auto-refresh argument set to true"

/-- The provider-resolution and auto-refresh gate of `Run`, after the
config phase: resolve the provider, and if `--auto-refresh` is set, check
the refresh capability before any authentication; only then call
`LoginWithRefresh`/`Login`. -/
def runAfterConfig (i : RunInput) : RunOutcome :=
  match i.resolvedProvider with
  | .error e => .failed e
  | .ok p =>
    if i.autoRefresh then
      if p.refreshable then .login true p
      else .failed (noRefreshMsg p.issuer)
    else .login false p

/-- The config phase of `LoginCmd.Run` followed by `runAfterConfig`:
if a config file exists at the resolved path, load it (`--create-config`
then only logs); if none exists and `--create-config` is set, return the
result of `CreateDefaultClientConfig` without logging in; if none exists
otherwise, fall back to the embedded default config. -/
def loginRun (i : RunInput) : RunOutcome :=
  let configPath := resolveConfigPath i.homePath i.configPathArg
  if fsHas i.fs configPath then
    match i.configParse with
    | .error e => .failed e
    | .ok _ => runAfterConfig i
  else
    if i.createConfig then
      let r := CreateDefaultClientConfig i.homePath i.configPathArg i.fs
      .configCreated r.1 r.2
    else
      match i.defaultConfigParse with
      | .error e => .failed ("failed to parse default config file: " ++ e)
      | .ok _ => runAfterConfig i

/-! ### Helper lemmas -/

/-- Argument extraction fails exactly on an argument vector whose length
is not 5. -/
theorem parseVerifyArgs_none (args : List String) (h : args.length ≠ 5) :
    parseVerifyArgs args = none := by
  rcases args with _ | ⟨a, _ | ⟨b, _ | ⟨c, _ | ⟨d, _ | ⟨e, _ | ⟨f, rest⟩⟩⟩⟩⟩⟩ <;>
    first
      | rfl
      | exact absurd rfl h

/-- The permission check passes exactly on owner `root`, group
`opksshuser` and mode `640`. -/
theorem checkPerm_ok_iff (m : FileMeta) :
    checkPerm m [0o640] "root" "opksshuser" = .ok () ↔
      m.owner = "root" ∧ m.group = "opksshuser" ∧ m.perms = 0o640 := by
  unfold checkPerm
  split_ifs with h1 h2 h3 <;> simp_all

/-- One step of the slot-selection loop, for a well-formed slot: take the
slot when it is free in the spec's sense, else move on. -/
theorem selectSSHSlot_cons (p : String) (s : SshKeySlot)
    (rest : List (String × SshKeySlot)) (hwf : s.WF) :
    selectSSHSlot ((p, s) :: rest) =
      if specSlotFree s then .ok p else selectSSHSlot rest := by
  rcases s with ⟨sk, pk, cmt⟩
  unfold SshKeySlot.WF at hwf
  cases sk <;> cases pk <;> rcases cmt with _ | c <;>
    simp_all [selectSSHSlot, specSlotFree]

/-! ### Claim theorems -/

/-- Claim C1: the claim says a verify invocation either exits 0 with
exactly the one authority line on stdout, or exits nonzero with nothing on
stdout, logging going only to the log file. The code violates this: when
`/var/log/openpubkey.log` cannot be opened, `fmt.Println` writes the
log-open error to stdout, so a fully successful verification prints two
lines (the sshd response is invalidated, contradicting the code's own
comment that printing anything else breaks the solution), and a failed one
exits 1 with a nonempty stdout. -/
theorem verify_stdout_polluted_when_log_open_fails :
    runVerify ["opkssh", "verify", "user", "certB64", "ecdsa-sha2-nistp256-cert-v01@openssh.com"]
        ⟨false, fun _ _ _ => .ok "AAAAE2VjZHNh"⟩ =
      (0, [logOpenErrLine, authorityLine "AAAAE2VjZHNh"]) ∧
    runVerify ["opkssh", "verify", "user", "certB64", "ecdsa-sha2-nistp256-cert-v01@openssh.com"]
        ⟨false, fun _ _ _ => .error "POLICY_DENY"⟩ =
      (1, [logOpenErrLine]) ∧
    [logOpenErrLine, authorityLine "AAAAE2VjZHNh"] ≠ [authorityLine "AAAAE2VjZHNh"] ∧
    [logOpenErrLine] ≠ ([] : List String) := by
  refine ⟨rfl, rfl, ?_, ?_⟩ <;> simp

/-- Claim C4, counterexample: the claim says the positional order is
user, then certificate type, then base64 certificate. The code reads the
base64 certificate from position 3 and the type from position 4 (it is
invoked by sshd as `verify %u %k %t`), so on a concrete argument vector
the source's extraction and the spec's stated order disagree. -/
theorem verify_arg_order_counterexample :
    parseVerifyArgs ["opkssh", "verify", "alice", "CERTB64", "ssh-cert-type"] =
      some ⟨"alice", "CERTB64", "ssh-cert-type"⟩ ∧
    specVerifyArgs ["opkssh", "verify", "alice", "CERTB64", "ssh-cert-type"] =
      some ⟨"alice", "ssh-cert-type", "CERTB64"⟩ ∧
    parseVerifyArgs ["opkssh", "verify", "alice", "CERTB64", "ssh-cert-type"] ≠
      specVerifyArgs ["opkssh", "verify", "alice", "CERTB64", "ssh-cert-type"] := by
  refine ⟨rfl, rfl, ?_⟩
  decide

/-- Claim C4, amended: the verify entry point is invoked by sshd with
positional arguments in the order desired user, then base64 certificate,
then certificate type string; an invocation with any other number of
positional arguments exits nonzero. -/
theorem verify_arg_order (args : List String) (env : VerifyEnv) :
    (∀ prog cmd u k t, args = [prog, cmd, u, k, t] →
      parseVerifyArgs args = some ⟨u, k, t⟩) ∧
    (args.length ≠ 5 → (runVerify args env).1 = 1) := by
  constructor
  · rintro prog cmd u k t rfl
    rfl
  · intro h
    simp [runVerify, parseVerifyArgs_none args h]

/-- Witness for `verify_arg_order` at a concrete argument vector. -/
theorem verify_arg_order_witness :
    parseVerifyArgs ["opkssh", "verify", "u", "CERT", "TYPE"] =
      some ⟨"u", "CERT", "TYPE"⟩ ∧
    (runVerify ["opkssh", "verify", "u"]
      ⟨true, fun _ _ _ => .ok "B64"⟩).1 = 1 :=
  ⟨(verify_arg_order ["opkssh", "verify", "u", "CERT", "TYPE"]
      ⟨true, fun _ _ _ => .ok "B64"⟩).1 "opkssh" "verify" "u" "CERT" "TYPE" rfl,
   (verify_arg_order ["opkssh", "verify", "u"]
      ⟨true, fun _ _ _ => .ok "B64"⟩).2 (by decide)⟩

/-- Claim C2: a trusted server-side configuration file whose ownership is
not `root:opksshuser` or whose mode is not `640` fails to load with a
permission error regardless of its contents; `env_vars` are exported into
the process environment only when ownership and mode are correct (and the
file is present and parses). -/
theorem trusted_file_perms_enforced (f : TrustedFile) (env : List (String × String)) :
    (f.meta.owner ≠ "root" ∨ f.meta.group ≠ "opksshuser" ∨ f.meta.perms ≠ 0o640 →
      ∃ e, setEnvVarInConfig f env = .error e) ∧
    (∀ out, setEnvVarInConfig f env = .ok out →
      f.meta.owner = "root" ∧ f.meta.group = "opksshuser" ∧ f.meta.perms = 0o640 ∧
      ∃ vs, f.envVars = some vs ∧ out = vs ++ env) := by
  constructor
  · intro h
    cases hpres : f.present
    · exact ⟨"file does not exist", by simp [setEnvVarInConfig, loadTrustedFile, hpres]⟩
    · cases hck : checkPerm f.meta [0o640] "root" "opksshuser" with
      | error e =>
        exact ⟨e, by simp [setEnvVarInConfig, loadTrustedFile, hpres, hck]⟩
      | ok u =>
        cases u
        rcases (checkPerm_ok_iff f.meta).mp hck with ⟨h1, h2, h3⟩
        rcases h with h | h | h <;> exact absurd (by assumption) h
  · intro out hout
    cases hpres : f.present
    · simp [setEnvVarInConfig, loadTrustedFile, hpres] at hout
    · cases hck : checkPerm f.meta [0o640] "root" "opksshuser" with
      | error e => simp [setEnvVarInConfig, loadTrustedFile, hpres, hck] at hout
      | ok u =>
        cases u
        rcases (checkPerm_ok_iff f.meta).mp hck with ⟨h1, h2, h3⟩
        cases hev : f.envVars with
        | none => simp [setEnvVarInConfig, loadTrustedFile, hpres, hck, hev] at hout
        | some vs =>
          simp only [setEnvVarInConfig, loadTrustedFile, hpres, hck, hev,
            Bool.not_true, Bool.false_eq_true, if_false] at hout
          cases hout
          exact ⟨h1, h2, h3, vs, rfl, rfl⟩

/-- Witness for `trusted_file_perms_enforced`: a server config with the
correct contents, correct ownership, but mode `677` is rejected. -/
theorem trusted_file_perms_enforced_witness :
    ∃ e, setEnvVarInConfig
      ⟨true, ⟨"root", "opksshuser", 0o677⟩,
        some [("OPKSSH_TEST_EXAMPLE_VAR1", "ABC"), ("OPKSSH_TEST_EXAMPLE_VAR2", "DEF")]⟩
      [] = .error e :=
  (trusted_file_perms_enforced _ _).1 (Or.inr (Or.inr (by decide)))

/-- Claim C3: without `--output-key`, the key pair goes to the first of
`~/.ssh/id_ecdsa`, `~/.ssh/id_ed25519` whose secret-key file is absent or
whose public-key file carries the comment `openpubkey`; the files of a
slot that is not free in that sense are never written; when neither
candidate is free the login fails with an error. -/
theorem writeKeysToSSHDir_selects_first_free (e1 e2 : SshKeySlot)
    (pem cert : String) (h1 : e1.WF) (h2 : e2.WF) :
    (writeKeysToSSHDir e1 e2 pem cert =
      if specSlotFree e1 then
        .ok (writeKeys idEcdsaPath (idEcdsaPath ++ ".pub") pem cert)
      else if specSlotFree e2 then
        .ok (writeKeys idEd25519Path (idEd25519Path ++ ".pub") pem cert)
      else .error "no default ssh key file free for openpubkey") ∧
    (¬ specSlotFree e1 → ∀ ws, writeKeysToSSHDir e1 e2 pem cert = .ok ws →
      ∀ w ∈ ws, w.path ≠ idEcdsaPath ∧ w.path ≠ idEcdsaPath ++ ".pub") ∧
    (¬ specSlotFree e2 → ∀ ws, writeKeysToSSHDir e1 e2 pem cert = .ok ws →
      ∀ w ∈ ws, w.path ≠ idEd25519Path ∧ w.path ≠ idEd25519Path ++ ".pub") ∧
    (¬ specSlotFree e1 ∧ ¬ specSlotFree e2 →
      writeKeysToSSHDir e1 e2 pem cert =
        .error "no default ssh key file free for openpubkey") := by
  have hsel : selectSSHSlot [(idEcdsaPath, e1), (idEd25519Path, e2)] =
      if specSlotFree e1 then .ok idEcdsaPath
      else if specSlotFree e2 then .ok idEd25519Path
      else .error "no default ssh key file free for openpubkey" := by
    rw [selectSSHSlot_cons _ _ _ h1]
    by_cases hf1 : specSlotFree e1
    · simp [hf1]
    · simp only [hf1, if_false]
      rw [selectSSHSlot_cons _ _ _ h2]
      rfl
  have hmain : writeKeysToSSHDir e1 e2 pem cert =
      if specSlotFree e1 then
        .ok (writeKeys idEcdsaPath (idEcdsaPath ++ ".pub") pem cert)
      else if specSlotFree e2 then
        .ok (writeKeys idEd25519Path (idEd25519Path ++ ".pub") pem cert)
      else .error "no default ssh key file free for openpubkey" := by
    unfold writeKeysToSSHDir
    rw [hsel]
    by_cases hf1 : specSlotFree e1
    · simp [hf1]
    · by_cases hf2 : specSlotFree e2 <;> simp [hf1, hf2]
  refine ⟨hmain, ?_, ?_, ?_⟩
  · intro hnf1 ws hws
    rw [hmain, if_neg hnf1] at hws
    by_cases hf2 : specSlotFree e2
    · rw [if_pos hf2] at hws
      cases hws
      intro w hw
      simp only [writeKeys, List.mem_cons, List.mem_singleton] at hw
      rcases hw with rfl | rfl | h
      · exact ⟨show idEd25519Path ≠ idEcdsaPath by decide,
               show idEd25519Path ≠ idEcdsaPath ++ ".pub" by decide⟩
      · exact ⟨show idEd25519Path ++ ".pub" ≠ idEcdsaPath by decide,
               show idEd25519Path ++ ".pub" ≠ idEcdsaPath ++ ".pub" by decide⟩
      · cases h
    · rw [if_neg hf2] at hws
      cases hws
  · intro hnf2 ws hws
    rw [hmain] at hws
    by_cases hf1 : specSlotFree e1
    · rw [if_pos hf1] at hws
      cases hws
      intro w hw
      simp only [writeKeys, List.mem_cons, List.mem_singleton] at hw
      rcases hw with rfl | rfl | h
      · exact ⟨show idEcdsaPath ≠ idEd25519Path by decide,
               show idEcdsaPath ≠ idEd25519Path ++ ".pub" by decide⟩
      · exact ⟨show idEcdsaPath ++ ".pub" ≠ idEd25519Path by decide,
               show idEcdsaPath ++ ".pub" ≠ idEd25519Path ++ ".pub" by decide⟩
      · cases h
    · rw [if_neg hf1, if_neg hnf2] at hws
      cases hws
  · rintro ⟨hnf1, hnf2⟩
    rw [hmain, if_neg hnf1, if_neg hnf2]

/-- Witness for `writeKeysToSSHDir_selects_first_free`: `id_ecdsa` absent
gets the keys; a foreign `id_ed25519` (comment `mykey`) next to it is
untouched. -/
theorem writeKeysToSSHDir_selects_first_free_witness :
    writeKeysToSSHDir ⟨false, false, none⟩ ⟨true, true, some "mykey"⟩ "PEM" "CERT" =
      if specSlotFree (⟨false, false, none⟩ : SshKeySlot) then
        .ok (writeKeys idEcdsaPath (idEcdsaPath ++ ".pub") "PEM" "CERT")
      else if specSlotFree (⟨true, true, some "mykey"⟩ : SshKeySlot) then
        .ok (writeKeys idEd25519Path (idEd25519Path ++ ".pub") "PEM" "CERT")
      else .error "no default ssh key file free for openpubkey" :=
  (writeKeysToSSHDir_selects_first_free ⟨false, false, none⟩ ⟨true, true, some "mykey"⟩
    "PEM" "CERT" (fun _ => rfl) (fun h => by cases h)).1

/-- Claim C5: provider resolution follows the precedence `--provider`
flag (short-circuiting everything), then `--provider-alias`, then the
`OPKSSH_DEFAULT`/`OPKSSH_PROVIDERS` environment variables, then the
config's `default_provider`, and the `WEBCHOOSER` chooser when none of
the earlier sources names one: the source's `determineProvider` equals
the resolution written out from the spec's precedence sentence. -/
theorem determineProvider_precedence (i : DetermineInput) :
    determineProvider i = specDetermineProvider i := by
  have halias : (if i.providerAliasArg ≠ "" then i.providerAliasArg
      else if i.envDefault ≠ "" then i.envDefault
      else if i.configDefaultProvider ≠ "" then i.configDefaultProvider
      else WEBCHOOSER_ALIAS) = specDefaultAlias i := by
    unfold specDefaultAlias
    by_cases h2 : i.providerAliasArg = "" <;>
      by_cases h3 : i.envDefault = "" <;>
        by_cases h4 : i.configDefaultProvider = "" <;>
          simp [h2, h3, h4, List.filter]
  unfold determineProvider specDetermineProvider
  by_cases hp : i.providerArg = ""
  · simp only [hp, ne_eq, not_true_eq_false, if_false, halias]
    cases i.envProviders with
    | error e => rfl
    | ok envCfgs =>
      cases envCfgs with
      | some cfgs =>
        by_cases hw : (specDefaultAlias i).toUpper = WEBCHOOSER_ALIAS <;>
          simp [hw]
      | none =>
        by_cases hl : i.configProviders.length > 0 <;>
          by_cases hw : (specDefaultAlias i).toUpper = WEBCHOOSER_ALIAS <;>
            simp [hl, hw]
  · simp only [hp, ne_eq, not_false_eq_true, if_true]

/-- Claim C6, counterexample: the claim says refresh-loop failures are
retried with exponential backoff (5 s initial, 5 min cap) unless fatal.
In the source every failure returns immediately: with a concrete trace
whose first iteration's refresh fails with a plain network error and whose
second iteration would succeed, the loop stops with the error and the
second iteration — the retry the claim promises — is never run, even
though running it would have succeeded. -/
theorem refresh_loop_no_retry_counterexample :
    refreshLoop "" ⟨1000, []⟩
      [⟨.woke, .error "PROVIDER_NET: network failure", .ok ("CERT", "PEM"),
         (⟨false, false, none⟩, ⟨false, false, none⟩), .ok 2000⟩,
       ⟨.woke, .ok (), .ok ("CERT", "PEM"),
         (⟨false, false, none⟩, ⟨false, false, none⟩), .ok 2000⟩] =
      .stopped "PROVIDER_NET: network failure" ∧
    refreshIter "" ⟨1000, []⟩
      ⟨.woke, .ok (), .ok ("CERT", "PEM"),
        (⟨false, false, none⟩, ⟨false, false, none⟩), .ok 2000⟩ =
      .next ⟨2000, writeKeys idEcdsaPath (idEcdsaPath ++ ".pub") "PEM" "CERT"⟩ :=
  ⟨rfl, rfl⟩

/-- Claim C6, amended: when a failure of any kind occurs inside the login
auto-refresh loop, the loop terminates immediately by returning the error;
no failure is retried, there is no backoff, and no error kind is treated
specially. The first conjunct is the general statement — any iteration
that returns stops the loop with the rest of the trace never consumed —
and the remaining conjuncts spell it out for each failure point of the
loop body: the refresh call, certificate generation, the key-file write,
and extracting `exp` from a malformed refreshed token. -/
theorem refresh_loop_fail_stops (p : String) (st : RefreshState)
    (env : IterEnv) (rest : List IterEnv) :
    (∀ e, refreshIter p st env = .stopped e →
      refreshLoop p st (env :: rest) = .stopped e) ∧
    (∀ e, env.wait = .woke → env.refreshResult = .error e →
      refreshLoop p st (env :: rest) = .stopped e) ∧
    (∀ e, env.wait = .woke → env.refreshResult = .ok () →
      env.certResult = .error e →
      refreshLoop p st (env :: rest) =
        .stopped ("failed to generate SSH cert: " ++ e)) ∧
    (∀ e certBytes seckeyPem, env.wait = .woke → env.refreshResult = .ok () →
      env.certResult = .ok (certBytes, seckeyPem) →
      (if p ≠ "" then
        Except.ok (writeKeys p (p ++ ".pub") seckeyPem certBytes)
       else writeKeysToSSHDir env.slots.1 env.slots.2 seckeyPem certBytes) = .error e →
      refreshLoop p st (env :: rest) =
        .stopped ("failed to write SSH keys to filesystem: " ++ e)) ∧
    (∀ e certBytes seckeyPem ws, env.wait = .woke → env.refreshResult = .ok () →
      env.certResult = .ok (certBytes, seckeyPem) →
      (if p ≠ "" then
        Except.ok (writeKeys p (p ++ ".pub") seckeyPem certBytes)
       else writeKeysToSSHDir env.slots.1 env.slots.2 seckeyPem certBytes) = .ok ws →
      env.expResult = .error e →
      refreshLoop p st (env :: rest) = .stopped e) := by
  refine ⟨?_, ?_, ?_, ?_, ?_⟩
  · intro e h
    simp [refreshLoop, h]
  · intro e hw hr
    simp [refreshLoop, refreshIter, hw, hr]
  · intro e hw hr hc
    simp [refreshLoop, refreshIter, hw, hr, hc]
  · intro e certBytes seckeyPem hw hr hc hwr
    simp only [refreshLoop, refreshIter, hw, hr, hc]
    rw [hwr]
  · intro e certBytes seckeyPem ws hw hr hc hwr hexp
    simp only [refreshLoop, refreshIter, hw, hr, hc]
    rw [hwr]
    simp [hexp]

/-- Witness for `refresh_loop_fail_stops`: concrete one-iteration traces
where the refresh call fails, certificate generation fails, the key-file
write fails (both default slots occupied by foreign keys), and the
refreshed token is malformed — each stops the loop with the error. -/
theorem refresh_loop_fail_stops_witness :
    refreshLoop "" ⟨100, []⟩
      [⟨.woke, .error "refresh boom", .ok ("c", "p"),
        (⟨false, false, none⟩, ⟨false, false, none⟩), .ok 7⟩] =
      .stopped "refresh boom" ∧
    refreshLoop "" ⟨100, []⟩
      [⟨.woke, .ok (), .error "cert boom",
        (⟨false, false, none⟩, ⟨false, false, none⟩), .ok 7⟩] =
      .stopped ("failed to generate SSH cert: " ++ "cert boom") ∧
    refreshLoop "" ⟨100, []⟩
      [⟨.woke, .ok (), .ok ("CERT", "PEM"),
        (⟨true, true, some "mykey"⟩, ⟨true, true, some "mykey"⟩), .ok 7⟩] =
      .stopped ("failed to write SSH keys to filesystem: " ++
        "no default ssh key file free for openpubkey") ∧
    refreshLoop "/key" ⟨100, []⟩
      [⟨.woke, .ok (), .ok ("CERT", "PEM"),
        (⟨false, false, none⟩, ⟨false, false, none⟩), .error "bad exp"⟩] =
      .stopped "bad exp" :=
  ⟨(refresh_loop_fail_stops "" ⟨100, []⟩
      ⟨.woke, .error "refresh boom", .ok ("c", "p"),
        (⟨false, false, none⟩, ⟨false, false, none⟩), .ok 7⟩ []).2.1
      "refresh boom" rfl rfl,
   (refresh_loop_fail_stops "" ⟨100, []⟩
      ⟨.woke, .ok (), .error "cert boom",
        (⟨false, false, none⟩, ⟨false, false, none⟩), .ok 7⟩ []).2.2.1
      "cert boom" rfl rfl rfl,
   (refresh_loop_fail_stops "" ⟨100, []⟩
      ⟨.woke, .ok (), .ok ("CERT", "PEM"),
        (⟨true, true, some "mykey"⟩, ⟨true, true, some "mykey"⟩), .ok 7⟩ []).2.2.2.1
      "no default ssh key file free for openpubkey" "CERT" "PEM"
      rfl rfl rfl (by simp [writeKeysToSSHDir, selectSSHSlot]),
   (refresh_loop_fail_stops "/key" ⟨100, []⟩
      ⟨.woke, .ok (), .ok ("CERT", "PEM"),
        (⟨false, false, none⟩, ⟨false, false, none⟩), .error "bad exp"⟩ []).2.2.2.2
      "bad exp" "CERT" "PEM" (writeKeys "/key" ("/key" ++ ".pub") "PEM" "CERT")
      rfl rfl rfl (by simp) rfl⟩

/-- Claim C7: each refresh-loop iteration suspends at its single wait
point, whose timer wakes at one minute before the current token's `exp`
(`now + untilExpired now exp = exp - 60`); cancellation terminates the
loop promptly with the context's error regardless of the rest of the
trace; and a timer wakeup with successful refresh, cert binding and write
rewrites the key files and continues the loop with the refreshed token's
`exp`. -/
theorem refresh_loop_iteration (p : String) (st : RefreshState)
    (env : IterEnv) (rest : List IterEnv) :
    (∀ now : Int, now + untilExpired now st.exp = st.exp - 60) ∧
    (env.wait = .cancelled →
      refreshLoop p st (env :: rest) = .stopped ctxCanceledErr) ∧
    (∀ certBytes seckeyPem newExp ws,
      env.wait = .woke → env.refreshResult = .ok () →
      env.certResult = .ok (certBytes, seckeyPem) →
      (if p ≠ "" then
        Except.ok (writeKeys p (p ++ ".pub") seckeyPem certBytes)
       else writeKeysToSSHDir env.slots.1 env.slots.2 seckeyPem certBytes) = .ok ws →
      env.expResult = .ok newExp →
      refreshLoop p st (env :: rest) =
        refreshLoop p ⟨newExp, st.writes ++ ws⟩ rest) := by
  refine ⟨?_, ?_, ?_⟩
  · intro now
    unfold untilExpired
    omega
  · intro hc
    simp [refreshLoop, refreshIter, hc]
  · intro certBytes seckeyPem newExp ws hwk hr hcert hwrite hexp
    simp only [refreshLoop, refreshIter, hwk, hr, hcert, hexp]
    rw [hwrite]

/-- Witness for `refresh_loop_iteration`: cancellation stops a concrete
trace with the context error; a successful wakeup on a concrete trace
rewrites the keys at the explicit `--output-key` path and carries the new
`exp`. -/
theorem refresh_loop_iteration_witness :
    refreshLoop "" ⟨100, []⟩
      [⟨.cancelled, .ok (), .ok ("c", "p"),
        (⟨false, false, none⟩, ⟨false, false, none⟩), .ok 7⟩] =
      .stopped ctxCanceledErr ∧
    refreshLoop "/key" ⟨100, []⟩
      [⟨.woke, .ok (), .ok ("CERT", "PEM"),
        (⟨false, false, none⟩, ⟨false, false, none⟩), .ok 999⟩] =
      refreshLoop "/key" ⟨999, [] ++ writeKeys "/key" ("/key" ++ ".pub") "PEM" "CERT"⟩ [] :=
  ⟨(refresh_loop_iteration "" ⟨100, []⟩
      ⟨.cancelled, .ok (), .ok ("c", "p"),
        (⟨false, false, none⟩, ⟨false, false, none⟩), .ok 7⟩ []).2.1 rfl,
   (refresh_loop_iteration "/key" ⟨100, []⟩
      ⟨.woke, .ok (), .ok ("CERT", "PEM"),
        (⟨false, false, none⟩, ⟨false, false, none⟩), .ok 999⟩ []).2.2
      "CERT" "PEM" 999 (writeKeys "/key" ("/key" ++ ".pub") "PEM" "CERT")
      rfl rfl rfl (by simp) rfl⟩

/-- Claim C8: on a successful login, whichever write path is taken (the
`--output-key` path via `writeKeys`, or the default slots via
`writeKeysToSSHDir`), exactly two files are written: the secret key with
mode `600`, and the certificate with `" openpubkey"` appended to the
certificate bytes, with mode `644`, at the secret-key path plus `.pub`. -/
theorem login_key_writes (seckeyPath pem certBytes : String)
    (e1 e2 : SshKeySlot) (ws : List FileWrite)
    (h : writeKeys seckeyPath (seckeyPath ++ ".pub") pem certBytes = ws ∨
      writeKeysToSSHDir e1 e2 pem certBytes = .ok ws) :
    ∃ skw pkw : FileWrite, ws = [skw, pkw] ∧
      skw.mode = 0o600 ∧ skw.content = pem ∧
      pkw.mode = 0o644 ∧ pkw.content = certBytes ++ " openpubkey" ∧
      pkw.path = skw.path ++ ".pub" := by
  rcases h with h | h
  · exact ⟨_, _, h.symm, rfl, rfl, rfl, rfl, rfl⟩
  · unfold writeKeysToSSHDir at h
    cases hsel : selectSSHSlot [(idEcdsaPath, e1), (idEd25519Path, e2)] with
    | error e => rw [hsel] at h; cases h
    | ok path =>
      rw [hsel] at h
      cases h
      exact ⟨_, _, rfl, rfl, rfl, rfl, rfl, rfl⟩

/-- Witness for `login_key_writes` at a concrete explicit key path. -/
theorem login_key_writes_witness :
    ∃ skw pkw : FileWrite,
      writeKeys "/out" ("/out" ++ ".pub") "PEM" "CERT" = [skw, pkw] ∧
      skw.mode = 0o600 ∧ skw.content = "PEM" ∧
      pkw.mode = 0o644 ∧ pkw.content = "CERT" ++ " openpubkey" ∧
      pkw.path = skw.path ++ ".pub" :=
  login_key_writes "/out" "PEM" "CERT" ⟨false, false, none⟩ ⟨false, false, none⟩
    (writeKeys "/out" ("/out" ++ ".pub") "PEM" "CERT") (Or.inl rfl)

/-- Claim C9: a login invoked with `--auto-refresh` whose resolved
provider does not implement the refresh capability never reaches
`Login`/`LoginWithRefresh` (no authentication is attempted), and when the
config phase passes it fails with the error naming the provider's
issuer. -/
theorem autorefresh_requires_refreshable (i : RunInput) (p : ProviderModel)
    (har : i.autoRefresh = true) (hp : i.resolvedProvider = .ok p)
    (hnr : p.refreshable = false) :
    (∀ w q, loginRun i ≠ .login w q) ∧
    (i.configParse = .ok () →
      fsHas i.fs (resolveConfigPath i.homePath i.configPathArg) = true →
      loginRun i = .failed (noRefreshMsg p.issuer)) := by
  have hafter : runAfterConfig i = .failed (noRefreshMsg p.issuer) := by
    simp [runAfterConfig, hp, har, hnr]
  constructor
  · intro w q
    unfold loginRun
    cases hfs : fsHas i.fs (resolveConfigPath i.homePath i.configPathArg) with
    | true =>
      simp only [hfs, if_true]
      cases hcp : i.configParse with
      | error e => simp
      | ok u => cases u; simp [hafter]
    | false =>
      simp only [hfs, Bool.false_eq_true, if_false]
      cases hcc : i.createConfig with
      | true => simp
      | false =>
        cases hdp : i.defaultConfigParse with
        | error e => simp
        | ok u => cases u; simp [hafter]
  · intro hcp hfs
    simp [loginRun, hfs, hcp, hafter]

/-- Witness for `autorefresh_requires_refreshable` on a concrete input. -/
theorem autorefresh_requires_refreshable_witness :
    (∀ w q, loginRun
      ⟨"/home/u", "", false, true,
        [⟨"/home/u" ++ "/.opk/config.yml", "cfg", 0o644⟩],
        .ok (), .ok (), .ok ⟨"https://issuer.example", false⟩⟩ ≠ .login w q) ∧
    loginRun
      ⟨"/home/u", "", false, true,
        [⟨"/home/u" ++ "/.opk/config.yml", "cfg", 0o644⟩],
        .ok (), .ok (), .ok ⟨"https://issuer.example", false⟩⟩ =
      .failed (noRefreshMsg "https://issuer.example") := by
  have h := autorefresh_requires_refreshable
    ⟨"/home/u", "", false, true,
      [⟨"/home/u" ++ "/.opk/config.yml", "cfg", 0o644⟩],
      .ok (), .ok (), .ok ⟨"https://issuer.example", false⟩⟩
    ⟨"https://issuer.example", false⟩ rfl rfl rfl
  exact ⟨h.1, h.2 rfl (by simp [fsHas, resolveConfigPath])⟩

/-- Claim C10: `CreateDefaultClientConfig` errors when a config file
already exists at the resolved path and leaves the filesystem unchanged;
and a login run with `--create-config` and no existing config file
creates the default config and returns without performing a login. -/
theorem create_config_no_overwrite_and_login_skip :
    (∀ homePath configPathArg fs,
      fsHas fs (resolveConfigPath homePath configPathArg) = true →
      CreateDefaultClientConfig homePath configPathArg fs =
        (.error ("attempting to create config file but config file already exists at " ++
          resolveConfigPath homePath configPathArg), fs)) ∧
    (∀ i : RunInput,
      fsHas i.fs (resolveConfigPath i.homePath i.configPathArg) = false →
      i.createConfig = true →
      loginRun i = .configCreated (.ok ())
        (i.fs ++ [⟨resolveConfigPath i.homePath i.configPathArg,
          defaultClientConfigContent, 0o644⟩]) ∧
      ∀ w p, loginRun i ≠ .login w p) := by
  constructor
  · intro homePath configPathArg fs hfs
    simp [CreateDefaultClientConfig, hfs]
  · intro i hfs hcc
    have hrun : loginRun i = .configCreated (.ok ())
        (i.fs ++ [⟨resolveConfigPath i.homePath i.configPathArg,
          defaultClientConfigContent, 0o644⟩]) := by
      simp [loginRun, hfs, hcc, CreateDefaultClientConfig]
    exact ⟨hrun, fun w p h => by rw [hrun] at h; cases h⟩

/-- Witness for `create_config_no_overwrite_and_login_skip` on concrete
filesystems: an existing config is not overwritten, and `--create-config`
with no config creates the default and skips login. -/
theorem create_config_no_overwrite_and_login_skip_witness :
    CreateDefaultClientConfig "/home/u" "" [⟨"/home/u/.opk/config.yml", "old", 0o644⟩] =
      (.error ("attempting to create config file but config file already exists at " ++
        resolveConfigPath "/home/u" ""), [⟨"/home/u/.opk/config.yml", "old", 0o644⟩]) ∧
    loginRun ⟨"/home/u", "", true, false, [], .ok (), .ok (),
        .ok ⟨"https://issuer.example", true⟩⟩ =
      .configCreated (.ok ())
        ([] ++ [⟨resolveConfigPath "/home/u" "", defaultClientConfigContent, 0o644⟩]) :=
  ⟨create_config_no_overwrite_and_login_skip.1 "/home/u" ""
      [⟨"/home/u/.opk/config.yml", "old", 0o644⟩] (by simp [fsHas, resolveConfigPath]),
   (create_config_no_overwrite_and_login_skip.2
      ⟨"/home/u", "", true, false, [], .ok (), .ok (),
        .ok ⟨"https://issuer.example", true⟩⟩ (by simp [fsHas]) rfl).1⟩

end Opkssh
